import Mathlib

/-!
Shallow embedding of the task-manager repository.

The repository has two source components relevant to the claims:

* `src/api/tasksApi.js` — a transport client with four operations
  (`fetchTasks`, `createTask`, `updateTask`, `deleteTask`) plus the shared
  `handleResponse` helper; each receives an HTTP response and either returns
  the parsed value or throws an `Error` carrying the response body text
  (or a default message when the body is empty).
* `src/Components/TaskList.js` — the collection controller: React state
  (`tasks`, `loading`, `error`, `showForm`, `editingTask`, `filter`,
  `searchTerm`) and the operations `fetchTasks`, `createTask`, `updateTask`,
  `deleteTask`, `toggleTaskStatus`, plus the derived `filteredTasks` view.
* The `Stats` component (second file in the repository sources) computes the
  statistics record inside its `fetchStats` closure.

Modelling choices:

* An HTTP response is a record `ApiResponse` carrying `ok`, the body text,
  and the already-parsed JSON value; `fetch` itself is outside the model, so
  each transport function takes the response it would receive as a parameter.
* JavaScript exceptions become `Except String`; a thrown `Error message`
  is `Except.error message`.
* A controller operation is a pure function from the pre-state (and the
  transport result it would observe) to the post-state, paired with the list
  of transport calls it issues, so "no call is issued" is expressible.
  React's `setX` calls are modelled as field updates on the state record,
  applied in source order.
* JavaScript strings become `String`; `toLowerCase` is modelled on the
  underlying character list with `Char.toLower` (ASCII lowering), and
  `String.prototype.includes` as `List.IsInfix` of the character lists.
* `Math.round((completed / total) * 100)` is modelled with exact rational
  arithmetic and Mathlib's `round` (round-half-up, matching `Math.round`
  on non-negative arguments).
-/

namespace TaskManager

/-- A task record as stored in the remote collection: server-assigned `id`,
display fields, a `status` in practice drawn from
`pending` / `completed`, an opaque `priority`, and the controller-stamped
`createdAt` string. -/
structure Task where
  id : String
  title : String
  description : String
  status : String
  priority : String
  createdAt : String
deriving DecidableEq, Repr

/-- The payload supplied by the task form on submit: all task fields except
`id` and `createdAt` (both added later). -/
structure TaskInput where
  title : String
  description : String
  status : String
  priority : String
deriving DecidableEq, Repr

/-- The body actually posted by the controller's create operation: the form
fields plus the `createdAt` stamp (`{...taskData, createdAt: new Date().toISOString()}`). -/
structure TaskPayload where
  title : String
  description : String
  status : String
  priority : String
  createdAt : String
deriving DecidableEq, Repr

/-- `{...taskData, createdAt: now}` — spread of the form payload with the
creation timestamp added. -/
def stampCreatedAt (taskData : TaskInput) (now : String) : TaskPayload :=
  { title := taskData.title
    description := taskData.description
    status := taskData.status
    priority := taskData.priority
    createdAt := now }

/-- A PATCH body: a field-level update where every field is optional.
The controller never inspects a patch, it only forwards it to the transport. -/
structure TaskPatch where
  title : Option String
  description : Option String
  status : Option String
  priority : Option String
deriving DecidableEq, Repr

/-- One transport call, with its arguments, as issued by the controller. -/
inductive TransportCall where
  | list : TransportCall
  | create : TaskPayload → TransportCall
  | update : String → TaskPatch → TransportCall
  | delete : String → TransportCall
deriving DecidableEq, Repr

/-- An HTTP response as observed by the transport client: the `ok` flag
(true exactly for 2xx statuses), the body text (as read by `response.text()`),
and the parsed JSON value (as produced by `response.json()`). -/
structure ApiResponse (α : Type) where
  ok : Bool
  bodyText : String
  json : α
deriving DecidableEq, Repr

namespace TasksApi

/-- `handleResponse` from `src/api/tasksApi.js`: on a non-ok response, throw
an `Error` whose message is the body text, or `Request failed` when the body
text is empty (JavaScript `message || 'Request failed'`); otherwise return the
parsed JSON. -/
def handleResponse {α : Type} (response : ApiResponse α) : Except String α :=
  if !response.ok then
    Except.error (if response.bodyText = "" then "Request failed" else response.bodyText)
  else
    Except.ok response.json

/-- `fetchTasks` from `src/api/tasksApi.js`: GET the collection and pipe the
response through `handleResponse`. -/
def fetchTasks (response : ApiResponse (List Task)) : Except String (List Task) :=
  handleResponse response

/-- `createTask` from `src/api/tasksApi.js`: POST `taskData` and pipe the
response through `handleResponse`. -/
def createTask (taskData : TaskPayload) (response : ApiResponse Task) : Except String Task :=
  handleResponse response

/-- `updateTask` from `src/api/tasksApi.js`: PATCH `updates` to `/tasks/:id`
and pipe the response through `handleResponse`. -/
def updateTask (taskId : String) (updates : TaskPatch) (response : ApiResponse Task) :
    Except String Task :=
  handleResponse response

/-- `deleteTask` from `src/api/tasksApi.js`: DELETE `/tasks/:id`; on a non-ok
response throw an `Error` whose message is the body text, or
`Failed to delete task` when the body text is empty; on success return `true`
(the response body is ignored). -/
def deleteTask (taskId : String) (response : ApiResponse Unit) : Except String Bool :=
  if !response.ok then
    Except.error (if response.bodyText = "" then "Failed to delete task" else response.bodyText)
  else
    Except.ok true

end TasksApi

namespace TaskList

/-- The React state of the `TaskList` component: the task snapshot plus the
UI flags, the surfaced error, and the ephemeral filter / search selectors. -/
structure ControllerState where
  tasks : List Task
  loading : Bool
  error : Option String
  showForm : Bool
  editingTask : Option Task
  filter : String
  searchTerm : String
deriving DecidableEq, Repr

/-- `fetchTasks` from `src/Components/TaskList.js`: `setLoading(true)`,
`setError(null)`, then on transport success `setTasks(apiTasks)`; on failure
`setError('Failed to fetch tasks. Please try again.')`; finally
`setLoading(false)`. Always issues exactly one `list` call. -/
def fetchTasks (s : ControllerState) (result : Except String (List Task)) :
    ControllerState × List TransportCall :=
  let s1 := { s with loading := true, error := none }
  match result with
  | Except.ok apiTasks =>
      ({ s1 with tasks := apiTasks, loading := false }, [TransportCall.list])
  | Except.error _ =>
      ({ s1 with error := some "Failed to fetch tasks. Please try again.", loading := false },
        [TransportCall.list])

/-- `createTask` from `src/Components/TaskList.js`: `setError(null)`, build
the payload `{...taskData, createdAt: new Date().toISOString()}` (with `now`
the timestamp taken at call time), POST it, and on success prepend the
server-returned record and hide the form; on failure
`setError('Failed to create task. Please try again.')`. -/
def createTask (s : ControllerState) (taskData : TaskInput) (now : String)
    (result : Except String Task) : ControllerState × List TransportCall :=
  let s1 := { s with error := none }
  let payload := stampCreatedAt taskData now
  match result with
  | Except.ok newTask =>
      ({ s1 with tasks := newTask :: s1.tasks, showForm := false },
        [TransportCall.create payload])
  | Except.error _ =>
      ({ s1 with error := some "Failed to create task. Please try again." },
        [TransportCall.create payload])

/-- `updateTask` from `src/Components/TaskList.js`: `setError(null)`, PATCH
`updatedData`, and on success replace every task whose `id` matches with the
server-returned record (`tasks.map(task => task.id === id ? updatedTask : task)`),
clear `editingTask` and hide the form; on failure
`setError('Failed to update task. Please try again.')`. -/
def updateTask (s : ControllerState) (id : String) (updatedData : TaskPatch)
    (result : Except String Task) : ControllerState × List TransportCall :=
  let s1 := { s with error := none }
  match result with
  | Except.ok updatedTask =>
      ({ s1 with
          tasks := s1.tasks.map (fun task => if task.id == id then updatedTask else task)
          editingTask := none
          showForm := false },
        [TransportCall.update id updatedData])
  | Except.error _ =>
      ({ s1 with error := some "Failed to update task. Please try again." },
        [TransportCall.update id updatedData])

/-- `deleteTask` from `src/Components/TaskList.js`: `setError(null)` is
executed first, unconditionally; then `window.confirm(...)` (the `confirmed`
parameter) gates the transport call; when confirmed, on success the matching
task is filtered out (`tasks.filter(task => task.id !== id)`), on failure
`setError('Failed to delete task. Please try again.')`; when the user
declines, nothing further happens. -/
def deleteTask (s : ControllerState) (id : String) (confirmed : Bool)
    (result : Except String Bool) : ControllerState × List TransportCall :=
  let s1 := { s with error := none }
  if confirmed then
    match result with
    | Except.ok _ =>
        ({ s1 with tasks := s1.tasks.filter (fun task => !(task.id == id)) },
          [TransportCall.delete id])
    | Except.error _ =>
        ({ s1 with error := some "Failed to delete task. Please try again." },
          [TransportCall.delete id])
  else
    (s1, [])

/-- `toggleTaskStatus` from `src/Components/TaskList.js`: look up the first
task with the given `id` (`tasks.find(t => t.id === id)`); when found, call
`updateTask(id, {status: task.status === 'completed' ? 'pending' : 'completed'})`;
when not found, do nothing. -/
def toggleTaskStatus (s : ControllerState) (id : String) (result : Except String Task) :
    ControllerState × List TransportCall :=
  match s.tasks.find? (fun t => t.id == id) with
  | some task =>
      updateTask s id
        { title := none
          description := none
          status := some (if task.status == "completed" then "pending" else "completed")
          priority := none }
        result
  | none => (s, [])

/-- The character list of a string lowered with `Char.toLower`, modelling
JavaScript `toLowerCase()`. -/
def lowerData (s : String) : List Char :=
  s.data.map Char.toLower

/-- The filter half of the `filteredTasks` predicate:
`filter === 'all' || task.status === filter || task.priority === filter`. -/
def matchesFilter (task : Task) (filter : String) : Bool :=
  filter == "all" || task.status == filter || task.priority == filter

/-- The search half of the `filteredTasks` predicate:
`task.title.toLowerCase().includes(searchTerm.toLowerCase()) ||
 task.description.toLowerCase().includes(searchTerm.toLowerCase())`. -/
def matchesSearch (task : Task) (searchTerm : String) : Bool :=
  decide (lowerData searchTerm <:+: lowerData task.title) ||
    decide (lowerData searchTerm <:+: lowerData task.description)

/-- `filteredTasks` from `src/Components/TaskList.js`:
`tasks.filter(task => matchesFilter && matchesSearch)`. -/
def filteredTasks (tasks : List Task) (filter searchTerm : String) : List Task :=
  tasks.filter (fun task => matchesFilter task filter && matchesSearch task searchTerm)

end TaskList

namespace Stats

/-- The statistics record shown by the `Stats` component. -/
structure StatsData where
  total : Nat
  completed : Nat
  pending : Nat
  completionRate : ℤ
deriving DecidableEq, Repr

/-- The computation inside `fetchStats` of the `Stats` component, applied to
the fetched task list: `total = tasks.length`,
`completed = tasks.filter(task => task.status === 'completed').length`,
`pending = total - completed`, and
`completionRate = total > 0 ? Math.round((completed / total) * 100) : 0`
(the source's local constants are inlined into the record fields). -/
def fetchStats (tasks : List Task) : StatsData :=
  { total := tasks.length
    completed := (tasks.filter (fun task => task.status == "completed")).length
    pending := tasks.length - (tasks.filter (fun task => task.status == "completed")).length
    completionRate :=
      if 0 < tasks.length then
        round ((((tasks.filter (fun task => task.status == "completed")).length : ℚ) /
          (tasks.length : ℚ)) * 100)
      else 0 }

end Stats

/-- A concrete task used to instantiate universally quantified theorems. -/
def sampleTask : Task :=
  { id := "1"
    title := "Buy Milk"
    description := "From the corner store"
    status := "pending"
    priority := "low"
    createdAt := "2024-01-01T00:00:00.000Z" }

/-- A concrete controller state holding a previously surfaced error, used to
exhibit the behaviour of a declined delete confirmation. -/
def erroredState : TaskList.ControllerState :=
  { tasks := [sampleTask]
    loading := false
    error := some "Failed to fetch tasks. Please try again."
    showForm := false
    editingTask := none
    filter := "all"
    searchTerm := "" }

/-- The sample task with its status switched to `completed`, standing for a
server-returned updated record. -/
def completedSample : Task :=
  { sampleTask with status := "completed" }

/-- A concrete PATCH body setting only `status`. -/
def statusPatch : TaskPatch :=
  { title := none, description := none, status := some "completed", priority := none }

/-- A concrete form payload. -/
def sampleInput : TaskInput :=
  { title := "X", description := "Y", status := "pending", priority := "low" }

/-- A concrete failed list response with an empty body. -/
def failedListResp : ApiResponse (List Task) :=
  { ok := false, bodyText := "", json := [] }

/-- A concrete successful response carrying a task. -/
def okTaskResp : ApiResponse Task :=
  { ok := true, bodyText := "", json := sampleTask }

/-- A concrete failed delete response with a non-empty body. -/
def failedDeleteResp : ApiResponse Unit :=
  { ok := false, bodyText := "gone", json := () }

/-- A concrete successful delete response. -/
def okDeleteResp : ApiResponse Unit :=
  { ok := true, bodyText := "", json := () }

/-- A concrete collection of five tasks of which exactly two are completed. -/
def fiveTasks : List Task :=
  [{ sampleTask with id := "1", status := "completed" },
    { sampleTask with id := "2", status := "pending" },
    { sampleTask with id := "3", status := "completed" },
    { sampleTask with id := "4", status := "pending" },
    { sampleTask with id := "5", status := "pending" }]

/-- C1 — counterexample. In the source, `deleteTask` runs `setError(null)`
before the `window.confirm` gate, so a declined confirmation issues no
transport call (first conjunct) yet still clears a previously surfaced error:
the controller state is not entirely unchanged (second conjunct). -/
theorem claim1_declined_delete_counterexample :
    (TaskList.deleteTask erroredState "1" false (Except.ok true)).2 = [] ∧
    (TaskList.deleteTask erroredState "1" false (Except.ok true)).1 ≠ erroredState := by
  exact ⟨rfl, by decide⟩

/-- C1 — amended. When the confirmation step returns `false`, no transport
call is issued and the post-state equals the pre-state with the surfaced
error cleared to `none`: in particular `tasks` and every other component are
unchanged, but the error state is reset rather than preserved. -/
theorem claim1_declined_delete_amended (s : TaskList.ControllerState) (id : String)
    (result : Except String Bool) :
    (TaskList.deleteTask s id false result).2 = [] ∧
    (TaskList.deleteTask s id false result).1.tasks = s.tasks ∧
    (TaskList.deleteTask s id false result).1 = { s with error := none } :=
  ⟨rfl, rfl, rfl⟩

/-- C1 — witness for the amended theorem at a concrete state, id and
transport result. -/
theorem claim1_declined_delete_amended_witness :
    (TaskList.deleteTask erroredState "7" false (Except.error "boom")).2 = [] ∧
    (TaskList.deleteTask erroredState "7" false (Except.error "boom")).1.tasks =
      erroredState.tasks ∧
    (TaskList.deleteTask erroredState "7" false (Except.error "boom")).1 =
      { erroredState with error := none } :=
  claim1_declined_delete_amended erroredState "7" (Except.error "boom")

/-- C2: a task of the list is in the filtered view iff it passes the filter
selector (`all`, or status match, or priority match) and the case-insensitive
substring search over title or description; moreover the empty search string
matches every task. -/
theorem claim2_filteredTasks_membership (tasks : List Task) (filter searchTerm : String)
    (task : Task) (hmem : task ∈ tasks) :
    (task ∈ TaskList.filteredTasks tasks filter searchTerm ↔
      ((filter = "all" ∨ task.status = filter ∨ task.priority = filter) ∧
        (TaskList.lowerData searchTerm <:+: TaskList.lowerData task.title ∨
          TaskList.lowerData searchTerm <:+: TaskList.lowerData task.description))) ∧
    TaskList.matchesSearch task "" = true := by
  constructor
  · simp [TaskList.filteredTasks, List.mem_filter, hmem, TaskList.matchesFilter,
      TaskList.matchesSearch, or_assoc]
  · have h0 : TaskList.lowerData "" = [] := rfl
    simp [TaskList.matchesSearch, h0, List.nil_infix]

/-- C2 — witness at a concrete list, filter, search string and task; the
search term `milk` matches the title `Buy Milk` case-insensitively. -/
theorem claim2_filteredTasks_membership_witness :
    sampleTask ∈ [sampleTask] ∧
    ((sampleTask ∈ TaskList.filteredTasks [sampleTask] "all" "milk" ↔
      (("all" = "all" ∨ sampleTask.status = "all" ∨ sampleTask.priority = "all") ∧
        (TaskList.lowerData "milk" <:+: TaskList.lowerData sampleTask.title ∨
          TaskList.lowerData "milk" <:+: TaskList.lowerData sampleTask.description))) ∧
      TaskList.matchesSearch sampleTask "" = true) :=
  ⟨by decide, claim2_filteredTasks_membership [sampleTask] "all" "milk" sampleTask (by decide)⟩

/-- C10: the filtered view is a sublist (subsequence) of the task list — it
preserves relative order, contains only records of the list, and duplicates
no record (its count of every record is at most the list's count). -/
theorem claim10_filteredTasks_sublist (tasks : List Task) (filter searchTerm : String) :
    (TaskList.filteredTasks tasks filter searchTerm).Sublist tasks ∧
    (∀ task, task ∈ TaskList.filteredTasks tasks filter searchTerm → task ∈ tasks) ∧
    (∀ task, (TaskList.filteredTasks tasks filter searchTerm).count task ≤ tasks.count task) :=
  ⟨List.filter_sublist tasks,
    fun _ h => (List.filter_sublist tasks).mem h,
    fun task => (List.filter_sublist tasks).count_le task⟩

/-- C10 — witness at a concrete list, filter, search string and task. -/
theorem claim10_filteredTasks_sublist_witness :
    (TaskList.filteredTasks [sampleTask] "pending" "store").Sublist [sampleTask] ∧
    (sampleTask ∈ TaskList.filteredTasks [sampleTask] "pending" "store" →
      sampleTask ∈ [sampleTask]) ∧
    (TaskList.filteredTasks [sampleTask] "pending" "store").count sampleTask ≤
      [sampleTask].count sampleTask :=
  ⟨(claim10_filteredTasks_sublist [sampleTask] "pending" "store").1,
    (claim10_filteredTasks_sublist [sampleTask] "pending" "store").2.1 sampleTask,
    (claim10_filteredTasks_sublist [sampleTask] "pending" "store").2.2 sampleTask⟩

/-- Two statistics records with equal fields are equal. -/
theorem statsData_ext {a b : Stats.StatsData} (h1 : a.total = b.total)
    (h2 : a.completed = b.completed) (h3 : a.pending = b.pending)
    (h4 : a.completionRate = b.completionRate) : a = b := by
  cases a; cases b; simp_all

/-- C3: the statistics view computes `total` as the number of records,
`completed` as the number of records with status `completed`,
`pending = total - completed`, and `completionRate` as the rounded completion
percentage when `total > 0` and `0` otherwise; the empty collection yields the
all-zero record with no division, and five tasks with two completed yield
`total=5, completed=2, pending=3, completionRate=40`. -/
theorem claim3_fetchStats_formulas (tasks : List Task) :
    (Stats.fetchStats tasks).total = tasks.length ∧
    (Stats.fetchStats tasks).completed =
      (tasks.filter (fun task => task.status == "completed")).length ∧
    (Stats.fetchStats tasks).pending =
      (Stats.fetchStats tasks).total - (Stats.fetchStats tasks).completed ∧
    (Stats.fetchStats tasks).completionRate =
      (if 0 < tasks.length then
        round ((((tasks.filter (fun task => task.status == "completed")).length : ℚ) /
          (tasks.length : ℚ)) * 100)
      else 0) ∧
    Stats.fetchStats [] = { total := 0, completed := 0, pending := 0, completionRate := 0 } ∧
    Stats.fetchStats fiveTasks =
      { total := 5, completed := 2, pending := 3, completionRate := 40 } := by
  refine ⟨rfl, rfl, rfl, rfl, by decide, ?_⟩
  have hlen : fiveTasks.length = 5 := by decide
  have hcomp : (fiveTasks.filter (fun task => task.status == "completed")).length = 2 := by
    decide
  have hrate : (Stats.fetchStats fiveTasks).completionRate = 40 := by
    show (if 0 < fiveTasks.length then
        round ((((fiveTasks.filter (fun task => task.status == "completed")).length : ℚ) /
          (fiveTasks.length : ℚ)) * 100)
      else 0) = 40
    rw [hlen, hcomp]
    norm_num [round_eq]
  exact statsData_ext (by decide) (by decide) (by decide) hrate

/-- C4: on transport success the update operation maps the task list so that
every position whose record's `id` matches is replaced by the server-returned
record and every other position keeps its record, with the length unchanged;
on transport failure the task list is unchanged. -/
theorem claim4_updateTask_replaces_by_id (s : TaskList.ControllerState) (id : String)
    (patch : TaskPatch) (u : Task) (e : String) :
    ((TaskList.updateTask s id patch (Except.ok u)).1.tasks.length = s.tasks.length ∧
      (∀ i : Nat, (TaskList.updateTask s id patch (Except.ok u)).1.tasks[i]? =
        (s.tasks[i]?).map (fun task => if task.id == id then u else task))) ∧
    (TaskList.updateTask s id patch (Except.error e)).1.tasks = s.tasks := by
  refine ⟨⟨?_, ?_⟩, rfl⟩
  · show (s.tasks.map _).length = s.tasks.length
    simp
  · intro i
    show (s.tasks.map _)[i]? = _
    simp [List.getElem?_map]

/-- C4 — witness at a concrete state, id, patch and transport results. -/
theorem claim4_updateTask_replaces_by_id_witness :
    ((TaskList.updateTask erroredState "1" statusPatch
        (Except.ok completedSample)).1.tasks.length = erroredState.tasks.length ∧
      (TaskList.updateTask erroredState "1" statusPatch
        (Except.ok completedSample)).1.tasks[0]? =
        (erroredState.tasks[0]?).map
          (fun task => if task.id == "1" then completedSample else task)) ∧
    (TaskList.updateTask erroredState "1" statusPatch (Except.error "boom")).1.tasks =
      erroredState.tasks :=
  ⟨⟨(claim4_updateTask_replaces_by_id erroredState "1" statusPatch completedSample "boom").1.1,
    (claim4_updateTask_replaces_by_id erroredState "1" statusPatch completedSample "boom").1.2 0⟩,
    (claim4_updateTask_replaces_by_id erroredState "1" statusPatch completedSample "boom").2⟩

/-- C5: the create operation always issues exactly one transport create call
whose payload is the submitted form data stamped with the call-time
`createdAt`; on success the server-returned record is prepended at index 0
with the rest of the list unchanged; on failure the task list is unchanged and
the surfaced error is non-null. -/
theorem claim5_createTask_pessimistic (s : TaskList.ControllerState) (taskData : TaskInput)
    (now : String) (newTask : Task) (e : String) :
    (stampCreatedAt taskData now).createdAt = now ∧
    (TaskList.createTask s taskData now (Except.ok newTask)).2 =
      [TransportCall.create (stampCreatedAt taskData now)] ∧
    (TaskList.createTask s taskData now (Except.error e)).2 =
      [TransportCall.create (stampCreatedAt taskData now)] ∧
    (TaskList.createTask s taskData now (Except.ok newTask)).1.tasks = newTask :: s.tasks ∧
    (TaskList.createTask s taskData now (Except.error e)).1.tasks = s.tasks ∧
    (TaskList.createTask s taskData now (Except.error e)).1.error =
      some "Failed to create task. Please try again." ∧
    (TaskList.createTask s taskData now (Except.error e)).1.error ≠ none :=
  ⟨rfl, rfl, rfl, rfl, rfl, rfl, Option.some_ne_none _⟩

/-- C5 — witness at a concrete state, form payload, timestamp and transport
results. -/
theorem claim5_createTask_pessimistic_witness :
    (stampCreatedAt
        { title := "X", description := "Y", status := "pending", priority := "low" }
        "2024-02-02T00:00:00.000Z").createdAt = "2024-02-02T00:00:00.000Z" ∧
    (TaskList.createTask erroredState
        { title := "X", description := "Y", status := "pending", priority := "low" }
        "2024-02-02T00:00:00.000Z" (Except.ok completedSample)).2 =
      [TransportCall.create (stampCreatedAt
        { title := "X", description := "Y", status := "pending", priority := "low" }
        "2024-02-02T00:00:00.000Z")] ∧
    (TaskList.createTask erroredState
        { title := "X", description := "Y", status := "pending", priority := "low" }
        "2024-02-02T00:00:00.000Z" (Except.error "boom")).2 =
      [TransportCall.create (stampCreatedAt
        { title := "X", description := "Y", status := "pending", priority := "low" }
        "2024-02-02T00:00:00.000Z")] ∧
    (TaskList.createTask erroredState
        { title := "X", description := "Y", status := "pending", priority := "low" }
        "2024-02-02T00:00:00.000Z" (Except.ok completedSample)).1.tasks =
      completedSample :: erroredState.tasks ∧
    (TaskList.createTask erroredState
        { title := "X", description := "Y", status := "pending", priority := "low" }
        "2024-02-02T00:00:00.000Z" (Except.error "boom")).1.tasks = erroredState.tasks ∧
    (TaskList.createTask erroredState
        { title := "X", description := "Y", status := "pending", priority := "low" }
        "2024-02-02T00:00:00.000Z" (Except.error "boom")).1.error =
      some "Failed to create task. Please try again." ∧
    (TaskList.createTask erroredState
        { title := "X", description := "Y", status := "pending", priority := "low" }
        "2024-02-02T00:00:00.000Z" (Except.error "boom")).1.error ≠ none :=
  claim5_createTask_pessimistic erroredState
    { title := "X", description := "Y", status := "pending", priority := "low" }
    "2024-02-02T00:00:00.000Z" completedSample "boom"

/-- C6: the toggle operation is a no-op issuing no transport call and leaving
the state untouched when no task of the current list has the given id; when
the first matching task is found, it issues exactly one update call whose
patch sets `status` to `pending` for a `completed` record and to `completed`
otherwise (in particular for a `pending` record). -/
theorem claim6_toggleTaskStatus_flip (s : TaskList.ControllerState) (id : String)
    (result : Except String Task) :
    (s.tasks.find? (fun t => t.id == id) = none →
      TaskList.toggleTaskStatus s id result = (s, [])) ∧
    (∀ task, s.tasks.find? (fun t => t.id == id) = some task →
      (TaskList.toggleTaskStatus s id result).2 =
        [TransportCall.update id
          { title := none
            description := none
            status := some (if task.status == "completed" then "pending" else "completed")
            priority := none }]) := by
  constructor
  · intro h
    simp [TaskList.toggleTaskStatus, h]
  · intro task h
    cases result with
    | ok u => simp [TaskList.toggleTaskStatus, h, TaskList.updateTask]
    | error e => simp [TaskList.toggleTaskStatus, h, TaskList.updateTask]

/-- C6 — witness: on a state whose only task has id `1` and status `pending`,
toggling id `2` is a complete no-op and toggling id `1` issues one update
call patching the status to `completed`. -/
theorem claim6_toggleTaskStatus_flip_witness :
    TaskList.toggleTaskStatus erroredState "2" (Except.ok completedSample) =
      (erroredState, []) ∧
    (TaskList.toggleTaskStatus erroredState "1" (Except.ok completedSample)).2 =
      [TransportCall.update "1"
        { title := none, description := none, status := some "completed",
          priority := none }] :=
  ⟨(claim6_toggleTaskStatus_flip erroredState "2" (Except.ok completedSample)).1 (by decide),
    (claim6_toggleTaskStatus_flip erroredState "1" (Except.ok completedSample)).2
      sampleTask (by decide)⟩

/-- C7: the refresh operation issues exactly one transport list call; on
success the task list is replaced wholesale by the fetched result; on failure
the task list is exactly unchanged (no partial merge) and the fetch error
message is surfaced. -/
theorem claim7_fetchTasks_wholesale (s : TaskList.ControllerState) (apiTasks : List Task)
    (e : String) :
    (TaskList.fetchTasks s (Except.ok apiTasks)).1.tasks = apiTasks ∧
    (TaskList.fetchTasks s (Except.error e)).1.tasks = s.tasks ∧
    (TaskList.fetchTasks s (Except.error e)).1.error =
      some "Failed to fetch tasks. Please try again." ∧
    (TaskList.fetchTasks s (Except.ok apiTasks)).2 = [TransportCall.list] ∧
    (TaskList.fetchTasks s (Except.error e)).2 = [TransportCall.list] :=
  ⟨rfl, rfl, rfl, rfl, rfl⟩

/-- C7 — witness at a concrete state and transport results. -/
theorem claim7_fetchTasks_wholesale_witness :
    (TaskList.fetchTasks erroredState (Except.ok [completedSample])).1.tasks =
      [completedSample] ∧
    (TaskList.fetchTasks erroredState (Except.error "boom")).1.tasks = erroredState.tasks ∧
    (TaskList.fetchTasks erroredState (Except.error "boom")).1.error =
      some "Failed to fetch tasks. Please try again." ∧
    (TaskList.fetchTasks erroredState (Except.ok [completedSample])).2 =
      [TransportCall.list] ∧
    (TaskList.fetchTasks erroredState (Except.error "boom")).2 = [TransportCall.list] :=
  claim7_fetchTasks_wholesale erroredState [completedSample] "boom"

/-- C8: each of the four transport operations fails on a non-ok response with
an error whose detail is the response body text when non-empty and the
operation's default message otherwise, and returns its parsed value (or
`true` for delete) on an ok response, never raising. -/
theorem claim8_requestFailed_contract (listResp : ApiResponse (List Task))
    (payload : TaskPayload) (createResp : ApiResponse Task) (taskId : String)
    (patch : TaskPatch) (updateResp : ApiResponse Task) (deleteResp : ApiResponse Unit) :
    (listResp.ok = false →
      TasksApi.fetchTasks listResp =
        Except.error (if listResp.bodyText = "" then "Request failed" else listResp.bodyText)) ∧
    (listResp.ok = true → TasksApi.fetchTasks listResp = Except.ok listResp.json) ∧
    (createResp.ok = false →
      TasksApi.createTask payload createResp =
        Except.error
          (if createResp.bodyText = "" then "Request failed" else createResp.bodyText)) ∧
    (createResp.ok = true →
      TasksApi.createTask payload createResp = Except.ok createResp.json) ∧
    (updateResp.ok = false →
      TasksApi.updateTask taskId patch updateResp =
        Except.error
          (if updateResp.bodyText = "" then "Request failed" else updateResp.bodyText)) ∧
    (updateResp.ok = true →
      TasksApi.updateTask taskId patch updateResp = Except.ok updateResp.json) ∧
    (deleteResp.ok = false →
      TasksApi.deleteTask taskId deleteResp =
        Except.error
          (if deleteResp.bodyText = "" then "Failed to delete task"
            else deleteResp.bodyText)) ∧
    (deleteResp.ok = true → TasksApi.deleteTask taskId deleteResp = Except.ok true) := by
  refine ⟨?_, ?_, ?_, ?_, ?_, ?_, ?_, ?_⟩ <;> intro h <;>
    simp [TasksApi.fetchTasks, TasksApi.createTask, TasksApi.updateTask,
      TasksApi.deleteTask, TasksApi.handleResponse, h]

/-- C8 — witness: a non-ok list response with an empty body yields the
default detail, a non-ok delete response with a non-empty body yields that
body as detail, and an ok delete response returns `true`. -/
theorem claim8_requestFailed_contract_witness :
    TasksApi.fetchTasks { ok := false, bodyText := "", json := [] } =
      Except.error "Request failed" ∧
    TasksApi.deleteTask "9" { ok := false, bodyText := "gone", json := () } =
      Except.error "gone" ∧
    TasksApi.deleteTask "9" { ok := true, bodyText := "", json := () } = Except.ok true :=
  ⟨(claim8_requestFailed_contract failedListResp (stampCreatedAt sampleInput "now")
      okTaskResp "9" statusPatch okTaskResp failedDeleteResp).1 rfl,
    (claim8_requestFailed_contract failedListResp (stampCreatedAt sampleInput "now")
      okTaskResp "9" statusPatch okTaskResp failedDeleteResp).2.2.2.2.2.2.1 rfl,
    (claim8_requestFailed_contract failedListResp (stampCreatedAt sampleInput "now")
      okTaskResp "9" statusPatch okTaskResp okDeleteResp).2.2.2.2.2.2.2 rfl⟩

/-- C9: whenever the transport delete operation returns successfully, the
returned boolean is `true`; `false` is never returned. -/
theorem claim9_deleteTask_returns_true (taskId : String) (response : ApiResponse Unit)
    (b : Bool) (h : TasksApi.deleteTask taskId response = Except.ok b) : b = true := by
  rcases Bool.eq_false_or_eq_true response.ok with hok | hok <;>
    simp [TasksApi.deleteTask, hok] at h
  exact h

/-- C9 — witness: a successful concrete delete call returns `true`. -/
theorem claim9_deleteTask_returns_true_witness : true = true :=
  claim9_deleteTask_returns_true "1" { ok := true, bodyText := "", json := () } true rfl

end TaskManager
